import Mathlib

/-!
Verification of the README-generator core pipeline

Shallow embedding of the core components of the `readme-generator`
repository (`src/config.py`, `src/models.py`, `src/github_analyzer.py`,
`src/readme_generator.py`) together with proofs about the claims of the
natural-language specification.

Modelling conventions:
* Python `str` is Lean `String` (operated on through `String.data : List Char`
  where character-level processing is required).
* Python `dict` (insertion-ordered) is an association list.
* Python `float` percentages are modelled with exact rationals `ℚ`.
* Network responses are explicit inputs: the remote tree is a forest of
  `GhEntry`, and HTTP responses of the completion endpoint are a sequence
  `Nat → CompletionResponse`.
-/

namespace ReadmeGen

/-- Model of `src/models.py` `FileData`: a file collected by the analyzer. -/
structure FileData where
  path : String
  name : String
  extension : String
  size : Nat
  content : String
  deriving DecidableEq, Repr

/-- Model of `src/models.py` `LanguageStats`: language → percentage (exact rational),
plus the grand total of counted lines. -/
structure LanguageStats where
  languages : List (String × ℚ)
  totalLines : Nat
  deriving DecidableEq, Repr

/-- Model of `src/models.py` `RepositoryData`: the aggregate produced by
`analyze_repository`. -/
structure RepositoryData where
  name : String
  fullName : String
  description : String
  url : String
  cloneUrl : String
  language : String
  languages : LanguageStats
  stars : Nat
  forks : Nat
  openIssues : Nat
  createdAt : String
  updatedAt : String
  projectType : String
  files : List FileData
  readmeContent : String
  licenseContent : String
  hasWiki : Bool
  hasIssues : Bool
  hasProjects : Bool
  deriving DecidableEq, Repr

/-- Model of `src/config.py` `Config`: the configuration fields consumed by the core. -/
structure Config where
  openrouterApiKey : String := ""
  modelName : String := "openai/gpt-4o"
  apiBaseUrl : String := "https://openrouter.ai/api/v1"
  maxFileSize : Nat := 100000
  maxFiles : Nat := 50
  supportedExtensions : List String :=
    [".py", ".js", ".ts", ".jsx", ".tsx", ".java", ".cpp", ".c", ".cs",
     ".rb", ".go", ".rust", ".rs", ".php", ".swift", ".kt", ".scala",
     ".md", ".txt", ".yaml", ".yml", ".json", ".toml", ".cfg", ".ini",
     ".dockerfile", "Dockerfile", "Makefile", ".sh", ".bat"]
  includeBadges : Bool := true
  includeToc : Bool := true
  requestTimeout : Nat := 30
  maxRetries : Nat := 3
  retryDelay : ℚ := 1
  maxTokens : Nat := 2000
  deriving DecidableEq, Repr

/-- The default configuration (`Config()` in `src/config.py`). -/
def defaultConfig : Config := {}

/-! Section: String helpers mirroring the Python primitives used by the core -/

/-- Python `str.lower()` (the inputs handled by the tool are ASCII). -/
def pyLower (s : String) : String := String.mk (s.data.map Char.toLower)

/-- Index of the last `'.'` in a character list, if any
(Python `str.rfind('.')` restricted to a found result). -/
def lastDotIdx (l : List Char) : Option Nat :=
  (l.enum.filter (fun p => p.2 = '.')).getLast?.map (·.1)

/-- Python `pathlib.Path(name).suffix`: the extension including the dot, which is
non-empty exactly when the last dot sits strictly inside the name
(not first, not last character). -/
def pySuffix (name : String) : String :=
  match lastDotIdx name.data with
  | some i =>
      if 0 < i ∧ i < name.data.length - 1 then String.mk (name.data.drop i)
      else ""
  | none => ""

/-- Python `pathlib.Path(name).stem`: the name with the `pySuffix` removed. -/
def pyStem (name : String) : String :=
  match lastDotIdx name.data with
  | some i =>
      if 0 < i ∧ i < name.data.length - 1 then String.mk (name.data.take i)
      else name
  | none => name

/-- Python substring test `pat in s` on character lists (`True` for an empty
pattern). -/
def containsSub (pat : List Char) : List Char → Bool
  | [] => pat.isPrefixOf []
  | c :: rest => pat.isPrefixOf (c :: rest) || containsSub pat rest

mutual

/-- Number of lines reported by Python `str.splitlines()` while scanning at a
line start (boundaries modelled: `"\n"`, `"\r"`, `"\r\n"`). -/
def splitlinesCount : List Char → Nat
  | [] => 0
  | '\r' :: '\n' :: rest => 1 + splitlinesCount rest
  | '\n' :: rest => 1 + splitlinesCount rest
  | '\r' :: rest => 1 + splitlinesCount rest
  | _ :: rest => splitlinesCountInLine rest

/-- Variant of `splitlinesCount` while inside a line already known to be non-empty. -/
def splitlinesCountInLine : List Char → Nat
  | [] => 1
  | '\r' :: '\n' :: rest => 1 + splitlinesCount rest
  | '\n' :: rest => 1 + splitlinesCount rest
  | '\r' :: rest => 1 + splitlinesCount rest
  | _ :: rest => splitlinesCountInLine rest

end

/-! Section: Derived-Statistics Engine (`github_analyzer.py`) -/

/-- The extension → language table of `_analyze_languages`. -/
def languageMap : List (String × String) :=
  [(".py", "Python"), (".js", "JavaScript"), (".ts", "TypeScript"),
   (".jsx", "React"), (".tsx", "React TypeScript"), (".java", "Java"),
   (".cpp", "C++"), (".c", "C"), (".cs", "C#"), (".rb", "Ruby"),
   (".go", "Go"), (".rs", "Rust"), (".php", "PHP"), (".swift", "Swift"),
   (".kt", "Kotlin"), (".scala", "Scala")]

/-- Python `dict` update `d[k] = d.get(k, 0) + v` on an insertion-ordered
association list. -/
def insertAdd : List (String × Nat) → String → Nat → List (String × Nat)
  | [], k, v => [(k, v)]
  | (k', v') :: rest, k, v =>
      if k' = k then (k', v' + v) :: rest else (k', v') :: insertAdd rest k v

/-- One iteration of the counting loop of `_analyze_languages`: accumulate
`(language_counts, total_lines)`. -/
def analyzeLanguagesStep (acc : List (String × Nat) × Nat) (f : FileData) :
    List (String × Nat) × Nat :=
  match languageMap.lookup f.extension with
  | some lang =>
      let lines := if f.content ≠ "" then splitlinesCount f.content.data else 0
      (insertAdd acc.1 lang lines, acc.2 + lines)
  | none => acc

/-- Model of `GitHubAnalyzer._analyze_languages`: line counts per language, converted
to percentages of the grand total (skipped when the total is zero). -/
def analyzeLanguages (files : List FileData) : LanguageStats :=
  let counted := files.foldl analyzeLanguagesStep ([], 0)
  let percentages :=
    if 0 < counted.2 then
      counted.1.map (fun p => (p.1, (p.2 : ℚ) / (counted.2 : ℚ) * 100))
    else []
  ⟨percentages, counted.2⟩

/-- Model of `GitHubAnalyzer._detect_project_type`: ordered heuristic chain,
first match wins. -/
def detectProjectType (files : List FileData) : String :=
  let fileNames := files.map (fun f => pyLower f.name)
  let fileExtensions := files.map (·.extension)
  if fileNames.contains "package.json" then
    if fileExtensions.any
        (fun e => containsSub ".jsx".data e.data || containsSub ".tsx".data e.data) then
      "React Application"
    else if fileExtensions.any (fun e => containsSub ".vue".data e.data) then
      "Vue.js Application"
    else "Node.js Application"
  else if fileNames.contains "requirements.txt" || fileNames.contains "pyproject.toml" then
    if fileNames.contains "manage.py" then "Django Application"
    else if files.any
        (fun f => (f.content ≠ "" : Bool) && containsSub "flask".data (pyLower f.content).data) then
      "Flask Application"
    else if files.any
        (fun f => (f.content ≠ "" : Bool) && containsSub "fastapi".data (pyLower f.content).data) then
      "FastAPI Application"
    else "Python Project"
  else if fileNames.contains "pom.xml" || fileNames.contains "build.gradle" then
    "Java Project"
  else if fileNames.contains "cargo.toml" then "Rust Project"
  else if fileNames.contains "go.mod" then "Go Project"
  else if fileNames.contains "gemfile" then "Ruby Project"
  else "General Project"

/-- Spec-side rendering of `_detect_project_type` as a priority-ordered rule
table `(predicate, label)`, the labels carrying the in-branch refinements. -/
def projectTypeRules : List ((List FileData → Bool) × (List FileData → String)) :=
  [(fun files => (files.map (fun f => pyLower f.name)).contains "package.json",
    fun files =>
      let fileExtensions := files.map (·.extension)
      if fileExtensions.any
          (fun e => containsSub ".jsx".data e.data || containsSub ".tsx".data e.data) then
        "React Application"
      else if fileExtensions.any (fun e => containsSub ".vue".data e.data) then
        "Vue.js Application"
      else "Node.js Application"),
   (fun files =>
      (files.map (fun f => pyLower f.name)).contains "requirements.txt"
        || (files.map (fun f => pyLower f.name)).contains "pyproject.toml",
    fun files =>
      let fileNames := files.map (fun f => pyLower f.name)
      if fileNames.contains "manage.py" then "Django Application"
      else if files.any
          (fun f => (f.content ≠ "" : Bool) && containsSub "flask".data (pyLower f.content).data) then
        "Flask Application"
      else if files.any
          (fun f => (f.content ≠ "" : Bool) && containsSub "fastapi".data (pyLower f.content).data) then
        "FastAPI Application"
      else "Python Project"),
   (fun files =>
      (files.map (fun f => pyLower f.name)).contains "pom.xml"
        || (files.map (fun f => pyLower f.name)).contains "build.gradle",
    fun _ => "Java Project"),
   (fun files => (files.map (fun f => pyLower f.name)).contains "cargo.toml",
    fun _ => "Rust Project"),
   (fun files => (files.map (fun f => pyLower f.name)).contains "go.mod",
    fun _ => "Go Project"),
   (fun files => (files.map (fun f => pyLower f.name)).contains "gemfile",
    fun _ => "Ruby Project")]

/-- First-match-wins evaluation of a rule table, defaulting to the
"General Project" fallback. -/
def firstMatch (files : List FileData) :
    List ((List FileData → Bool) × (List FileData → String)) → String
  | [] => "General Project"
  | (p, label) :: rest => if p files then label files else firstMatch files rest

/-- The spec's formulation of project-type detection: the rule table above,
evaluated top-to-bottom. -/
def detectProjectTypeSpec (files : List FileData) : String :=
  firstMatch files projectTypeRules

/-! Section: Bounded Tree Walker (`github_analyzer.py`, `_analyze_directory_structure`)

The remote tree is given up front as a forest of `GhEntry`: a directory
listing is the list of children (a failed or empty listing is `[]`), and a
file's `content` field is the result of `_get_file_content` (`none` models a
decode failure, recorded with empty content). -/

/-- One entry of a GitHub contents listing. -/
inductive GhEntry where
  | file (path name : String) (size : Nat) (content : Option String)
  | dir (path name : String) (children : List GhEntry)

/-- The special-name allow-list hard-coded in `_analyze_directory_structure`. -/
def specialFileNames : List String := ["README.md", "LICENSE", "Dockerfile", "Makefile"]

/-- The `FileData` record built for an accepted file entry. -/
def fileRecordOf (path name : String) (size : Nat) (content : Option String) :
    FileData :=
  ⟨path, name, pyLower (pySuffix name), size, content.getD ""⟩

/-- The `for item in contents` loop of `_analyze_directory_structure`:
`recurse` is the recursive call for subdirectories, `files` the accumulated
list, and the loop breaks as soon as `max_files` records were accepted. -/
def walkLoop (cfg : Config) (recurse : List GhEntry → List FileData) :
    List GhEntry → List FileData → List FileData
  | [], files => files
  | item :: rest, files =>
    if cfg.maxFiles ≤ files.length then files
    else
      match item with
      | .dir _ _ children => walkLoop cfg recurse rest (files ++ recurse children)
      | .file path name size content =>
          if pyLower (pySuffix name) ∈ cfg.supportedExtensions
              ∨ name ∈ specialFileNames then
            if size ≤ cfg.maxFileSize then
              walkLoop cfg recurse rest (files ++ [fileRecordOf path name size content])
            else walkLoop cfg recurse rest files
          else walkLoop cfg recurse rest files

/-- Model of `GitHubAnalyzer._analyze_directory_structure`, indexed by the remaining
recursion budget `fuel = max_level + 1 - level` (the source guard
`level > max_level` is `fuel = 0`; the top-level call has `level = 0`,
`max_level = 3`, i.e. `fuel = 4`). -/
def analyzeDirectoryStructure (cfg : Config) : Nat → List GhEntry → List FileData
  | 0, _ => []
  | fuel + 1, entries => walkLoop cfg (analyzeDirectoryStructure cfg fuel) entries []

/-- The walk as performed by `analyze_repository` (level 0, max level 3). -/
def walkRepositoryTree (cfg : Config) (root : List GhEntry) : List FileData :=
  analyzeDirectoryStructure cfg 4 root

/-! Section: Completion Client (`readme_generator.py`, `_call_openrouter_api`) -/

/-- One HTTP exchange of the completion endpoint, as classified by the
client: an HTTP 200 carries the list of choice message contents, any other
status carries its code, and transport errors are `aiohttp.ClientError`. -/
inductive CompletionResponse where
  | success (choices : List String)
  | httpError (code : Nat)
  | transportError
  deriving DecidableEq, Repr

/-- The retry loop of `_call_openrouter_api` over a response sequence:
`remaining` attempts are left and `attempt` requests were already sent.
Returns (number of requests sent, result). HTTP 200 with a non-empty
`choices` succeeds with the stripped content; HTTP 200 with a malformed
body and HTTP 401 are terminal failures; HTTP 429, any other status and
transport errors fall to the shared backoff-and-retry path. -/
def callLoop (responses : Nat → CompletionResponse) :
    Nat → Nat → Nat × Option String
  | 0, attempt => (attempt, none)
  | remaining + 1, attempt =>
    match responses attempt with
    | .success (c :: _) => (attempt + 1, some c.trim)
    | .success [] => (attempt + 1, none)
    | .httpError code =>
        if code = 401 then (attempt + 1, none)
        else callLoop responses remaining (attempt + 1)
    | .transportError => callLoop responses remaining (attempt + 1)

/-- Model of `ReadmeGenerator._call_openrouter_api`: up to `max_retries` requests. -/
def callOpenrouterApi (cfg : Config) (responses : Nat → CompletionResponse) :
    Nat × Option String :=
  callLoop responses cfg.maxRetries 0

/-- The JSON body POSTed by `_call_openrouter_api`. -/
structure CompletionPayload where
  model : String
  systemMessage : String
  userMessage : String
  maxTokens : Nat
  temperature : ℚ
  topP : ℚ
  deriving DecidableEq, Repr

/-- The `payload` dictionary literal of `_call_openrouter_api` (note:
`max_tokens` is the literal `4000`, not `config.max_tokens`). -/
def buildCompletionPayload (cfg : Config) (prompt : String) : CompletionPayload where
  model := cfg.modelName
  systemMessage := "You are an expert technical writer specializing in creating comprehensive, professional README.md files for software projects. You analyze code repositories and generate clear, well-structured documentation that helps users understand, install, and use the software effectively."
  userMessage := prompt
  maxTokens := 4000
  temperature := 3 / 10
  topP := 9 / 10

/-! Section: Code samples of the Prompt Assembler (`readme_generator.py`) -/

/-- Model of `RepositoryData.get_file_by_name` (`src/models.py`): first file whose
lowercased name equals the lowercased query. -/
def getFileByName (repo : RepositoryData) (name : String) : Option FileData :=
  repo.files.find? (fun f => pyLower f.name = pyLower name)

/-- The `config_patterns` list of `RepositoryData.get_config_files`. -/
def configPatterns : List String :=
  [".json", ".yaml", ".yml", ".toml", ".ini", ".cfg", "dockerfile", "makefile", ".env"]

/-- Model of `RepositoryData.get_config_files` (`src/models.py`). -/
def getConfigFiles (repo : RepositoryData) : List FileData :=
  repo.files.filter (fun f =>
    pyLower f.extension ∈ configPatterns
      ∨ pyLower f.name ∈ ["dockerfile", "makefile"]
      ∨ ".env".data.isPrefixOf (pyLower f.name).data)

/-- The `main_files` priority list of `_create_code_samples`. -/
def mainFiles : List String :=
  ["main.py", "app.py", "index.js", "main.js", "server.js",
   "main.java", "Main.java", "main.go", "lib.rs", "main.rs"]

/-- The `lang_map` of `_get_language_for_extension`. -/
def langIdMap : List (String × String) :=
  [(".py", "python"), (".js", "javascript"), (".ts", "typescript"),
   (".jsx", "jsx"), (".tsx", "tsx"), (".java", "java"), (".cpp", "cpp"),
   (".c", "c"), (".cs", "csharp"), (".rb", "ruby"), (".go", "go"),
   (".rs", "rust"), (".php", "php"), (".swift", "swift"), (".kt", "kotlin"),
   (".scala", "scala"), (".json", "json"), (".yaml", "yaml"), (".yml", "yaml"),
   (".toml", "toml"), (".xml", "xml"), (".html", "html"), (".css", "css"),
   (".sh", "bash"), (".bat", "batch"), (".md", "markdown")]

/-- Model of `ReadmeGenerator._get_language_for_extension`. -/
def getLanguageForExtension (extension : String) : String :=
  (langIdMap.lookup (pyLower extension)).getD ""

/-- Python slice `s[:n]` by characters. -/
def pyTake (s : String) (n : Nat) : String := String.mk (s.data.take n)

/-- The `for filename in main_files` loop of `_create_code_samples`: the
first present entry-point file with non-empty content yields one fenced
sample of its first 500 characters. -/
def findMainSample (repo : RepositoryData) : List String → Option String
  | [] => none
  | fn :: rest =>
    match getFileByName repo fn with
    | some fd =>
        if fd.content ≠ "" then
          some ("### " ++ fn ++ "\n```" ++ getLanguageForExtension fd.extension
            ++ "\n" ++ pyTake fd.content 500 ++ "...\n```")
        else findMainSample repo rest
    | none => findMainSample repo rest

/-- Model of `ReadmeGenerator._create_code_samples`: one entry-point sample followed by
up to two sub-1000-character configuration-file samples. -/
def createCodeSamples (repo : RepositoryData) : String :=
  let samples :=
    (match findMainSample repo mainFiles with
     | some s => [s]
     | none => []) ++
    ((getConfigFiles repo).take 2).filterMap (fun f =>
      if f.content ≠ "" ∧ f.content.length < 1000 then
        some ("### " ++ f.name ++ "\n```" ++ getLanguageForExtension f.extension
          ++ "\n" ++ f.content ++ "\n```")
      else none)
  if samples.isEmpty then "No significant code samples found."
  else String.intercalate "\n\n" samples

/-! Section: Markdown Post-Processor (`readme_generator.py`) -/

/-- Python `content.replace("\n\n\n", "\n\n")`: one left-to-right pass
replacing non-overlapping occurrences. -/
def collapseNewlines : List Char → List Char
  | '\n' :: '\n' :: '\n' :: rest => '\n' :: '\n' :: collapseNewlines rest
  | c :: rest => c :: collapseNewlines rest
  | [] => []

/-- Python `content.split("\n")`. -/
def splitNl : List Char → List (List Char)
  | [] => [[]]
  | '\n' :: rest => [] :: splitNl rest
  | c :: rest =>
    match splitNl rest with
    | l :: ls => (c :: l) :: ls
    | [] => [[c]]

/-- Python `"\n".join(lines)`. -/
def joinNl (lines : List (List Char)) : List Char :=
  List.intercalate ['\n'] lines

/-- Python `lines.insert(i, x)` (clamping to the end like Python does). -/
def pyInsert (lines : List (List Char)) (i : Nat) (x : List Char) :
    List (List Char) :=
  lines.take i ++ [x] ++ lines.drop i

/-- The `title_line` search of `_post_process_readme`: index of the first line
starting with `"# "`, defaulting to `0`. -/
def titleLineIdx (lines : List (List Char)) : Nat :=
  match lines.findIdx? (fun l => "# ".data.isPrefixOf l) with
  | some i => i
  | none => 0

/-- Model of `ReadmeGenerator._generate_badges`: shield badges joined by spaces; the
"last commit" badge is always present, so the result is never empty. -/
def generateBadges (repo : RepositoryData) : String :=
  let badges : List String :=
    (if repo.language ≠ "" then
      ["![Language](https://img.shields.io/badge/Language-" ++ repo.language ++ "-blue)"]
     else []) ++
    (if 0 < repo.stars then
      ["![Stars](https://img.shields.io/github/stars/" ++ repo.fullName ++ ")"]
     else []) ++
    (if 0 < repo.forks then
      ["![Forks](https://img.shields.io/github/forks/" ++ repo.fullName ++ ")"]
     else []) ++
    (if repo.hasIssues then
      ["![Issues](https://img.shields.io/github/issues/" ++ repo.fullName ++ ")"]
     else []) ++
    (if repo.licenseContent ≠ "" then
      ["![License](https://img.shields.io/github/license/" ++ repo.fullName ++ ")"]
     else []) ++
    ["![Last Commit](https://img.shields.io/github/last-commit/" ++ repo.fullName ++ ")"]
  if badges.isEmpty then "" else String.intercalate " " badges

/-- Model of `ReadmeGenerator._post_process_readme`: prepend a title if missing, insert
a badge paragraph after the first top-level heading when badges are enabled
and no image markup occurs in the first 500 characters, then apply the
newline-collapsing replacement. -/
def postProcessReadme (cfg : Config) (repo : RepositoryData) (content : String) :
    String :=
  let c1 :=
    if "# ".data.isPrefixOf content.data then content
    else "# " ++ repo.name ++ "\n\n" ++ content
  let c2 :=
    if cfg.includeBadges && !(containsSub "![".data (c1.data.take 500)) then
      let badges := generateBadges repo
      if badges ≠ "" then
        let lines := splitNl c1.data
        let t := titleLineIdx lines
        let lines := pyInsert (pyInsert (pyInsert lines (t + 1) []) (t + 2) badges.data) (t + 3) []
        String.mk (joinNl lines)
      else c1
    else c1
  String.mk (collapseNewlines c2.data)

/-- Count of occurrences of a pattern in a character list (positions are
counted at every index, which coincides with Python `str.count` for the
non-self-overlapping patterns used below). -/
def countOccur (pat : List Char) : List Char → Nat
  | [] => 0
  | c :: rest => (if pat.isPrefixOf (c :: rest) then 1 else 0) + countOccur pat rest

/-! Section: Concrete fixtures used by the theorems below -/

/-- A minimal repository record: no language, no stars/forks, no issues, no
license, so that `generateBadges` produces only the "last commit" badge. -/
def plainRepo : RepositoryData where
  name := "repo"
  fullName := "owner/repo"
  description := ""
  url := ""
  cloneUrl := ""
  language := ""
  languages := ⟨[], 0⟩
  stars := 0
  forks := 0
  openIssues := 0
  createdAt := ""
  updatedAt := ""
  projectType := ""
  files := []
  readmeContent := ""
  licenseContent := ""
  hasWiki := false
  hasIssues := false
  hasProjects := false

/-- Configuration capping the walk at 2 files. -/
def c1Config : Config := { defaultConfig with maxFiles := 2 }

/-- A root listing with one file followed by a directory holding two files. -/
def c1Tree : List GhEntry :=
  [.file "a.py" "a.py" 0 (some ""),
   .dir "d" "d" [.file "d/b.py" "b.py" 0 (some ""), .file "d/c.py" "c.py" 0 (some "")]]

/-! Section: C1: the walker's `maxFiles` bound -/

/-- C1 (code bug, evidence): with `max_files = 2` the walk of `c1Tree`
returns 3 records — the recursion into the subdirectory starts with a fresh
budget and its results are appended without re-checking the cap, so the
walker exceeds `max_files`, contrary to the claim and to the configuration's
own documentation ("Maximum number of files to analyze"). -/
theorem c1_walker_exceeds_max_files :
    c1Config.maxFiles = 2 ∧
    (walkRepositoryTree c1Config c1Tree).length = 3 ∧
    ¬ (walkRepositoryTree c1Config c1Tree).length ≤ c1Config.maxFiles := by
  decide

/-! Section: C2: completion-client response classification -/

/-- C2: a run whose first response is HTTP 401 sends exactly one request and
fails; with `max_retries = 3` and three consecutive HTTP 429 responses,
exactly 3 requests are sent and the run fails. -/
theorem c2_completion_classification
    (cfg1 cfg2 : Config) (r1 r2 : Nat → CompletionResponse)
    (h1 : 1 ≤ cfg1.maxRetries) (hr1 : r1 0 = .httpError 401)
    (h2 : cfg2.maxRetries = 3) (hr2 : ∀ i, i < 3 → r2 i = .httpError 429) :
    callOpenrouterApi cfg1 r1 = (1, none) ∧ callOpenrouterApi cfg2 r2 = (3, none) := by
  constructor
  · obtain ⟨k, hk⟩ : ∃ k, cfg1.maxRetries = k + 1 := ⟨cfg1.maxRetries - 1, by omega⟩
    unfold callOpenrouterApi
    rw [hk]
    simp [callLoop, hr1]
  · unfold callOpenrouterApi
    rw [h2]
    have e0 := hr2 0 (by omega)
    have e1 := hr2 1 (by omega)
    have e2 := hr2 2 (by omega)
    simp [callLoop, e0, e1, e2]

/-- Witness for C2 at concrete response sequences (all-401 and all-429). -/
theorem c2_completion_classification_witness :
    callOpenrouterApi defaultConfig (fun _ => .httpError 401) = (1, none) ∧
    callOpenrouterApi defaultConfig (fun _ => .httpError 429) = (3, none) :=
  c2_completion_classification defaultConfig defaultConfig _ _
    (by decide) rfl rfl (fun _ _ => rfl)

/-! Section: C5: the completion payload's `max_tokens` field -/

/-- C5 (code bug, evidence): the payload's `max_tokens` is the literal 4000
for every configuration, while `Config.max_tokens` (documented as the max
completion tokens and even loadable from the `MAX_TOKENS` environment
variable) defaults to 2000 and is never consulted. -/
theorem c5_max_tokens_hardcoded :
    (∀ cfg prompt, (buildCompletionPayload cfg prompt).maxTokens = 4000) ∧
    defaultConfig.maxTokens = 2000 ∧
    (buildCompletionPayload defaultConfig "").maxTokens ≠ defaultConfig.maxTokens :=
  ⟨fun _ _ => rfl, rfl, by decide⟩

/-! Section: C6: React detection -/

/-- A Node manifest whose content contains "react" but with no `.jsx`/`.tsx`
file in the set. -/
def c6File : FileData := ⟨"package.json", "package.json", ".json", 10, "react"⟩

/-- C6 (counterexample): a file set with a `package.json` whose content
contains `"react"` (case-insensitively) is classified as
"Node.js Application", not "React Application" — detection looks at file
extensions, not file contents. -/
theorem c6_counterexample :
    ([c6File].map (fun f => pyLower f.name)).contains "package.json" = true ∧
    containsSub "react".data (pyLower c6File.content).data = true ∧
    detectProjectType [c6File] = "Node.js Application" ∧
    detectProjectType [c6File] ≠ "React Application" := by
  decide

/-- C6 (amended): with a Node manifest present, the ecosystem refinement is
decided by extension evidence alone, not by file content: the result is
"React Application" exactly when some file extension contains `".jsx"` or
`".tsx"`; otherwise "Vue.js Application" when some extension contains
`".vue"`; otherwise "Node.js Application". -/
theorem c6_node_branch_refinement (files : List FileData)
    (hpkg : (files.map (fun f => pyLower f.name)).contains "package.json" = true) :
    detectProjectType files =
      (if (files.map (·.extension)).any
          (fun e => containsSub ".jsx".data e.data || containsSub ".tsx".data e.data) then
        "React Application"
      else if (files.map (·.extension)).any (fun e => containsSub ".vue".data e.data) then
        "Vue.js Application"
      else "Node.js Application") := by
  simp only [detectProjectType]
  rw [hpkg]
  simp only [eq_self_iff_true, if_true]

/-- Witness for C6 (amended): a manifest plus a `.jsx` component file is
classified "React Application". -/
theorem c6_node_branch_refinement_witness :
    detectProjectType
      [⟨"package.json", "package.json", ".json", 10, "{}"⟩,
       ⟨"src/App.jsx", "App.jsx", ".jsx", 5, "x"⟩] = "React Application" := by
  have h := c6_node_branch_refinement
    [⟨"package.json", "package.json", ".json", 10, "{}"⟩,
     ⟨"src/App.jsx", "App.jsx", ".jsx", 5, "x"⟩] (by decide)
  rw [h]
  decide

/-! Section: C3: end-to-end scenario on the two-file input set -/

/-- The input file set `{"main.py": "import os\nimport sys\n",
"requirements.txt": "flask\n"}` as collected by the walker. -/
def c3Files : List FileData :=
  [⟨"main.py", "main.py", ".py", 21, "import os\nimport sys\n"⟩,
   ⟨"requirements.txt", "requirements.txt", ".txt", 6, "flask\n"⟩]

/-- The repository snapshot assembled from `c3Files`. -/
def c3Repo : RepositoryData :=
  { plainRepo with
    name := "demo", fullName := "owner/demo",
    files := c3Files,
    languages := analyzeLanguages c3Files,
    projectType := detectProjectType c3Files }

/-- C3: on the concrete two-file input, the project type is
"Flask Application", the language statistics are exactly `{Python: 100}`,
and the code-sample section contains a fenced block labeled `python` with
the `main.py` excerpt. -/
theorem c3_end_to_end :
    detectProjectType c3Files = "Flask Application" ∧
    (analyzeLanguages c3Files).languages = [("Python", 100)] ∧
    containsSub "```python\nimport os\nimport sys\n".data
      (createCodeSamples c3Repo).data = true := by
  refine ⟨by decide, ?_, by decide⟩
  have hfold : c3Files.foldl analyzeLanguagesStep ([], 0) = ([("Python", 2)], 2) := by
    decide
  unfold analyzeLanguages
  rw [hfold]
  norm_num

/-! Section: C4: the newline-collapsing step -/

/-- Configuration with badge insertion disabled, isolating the spacing step. -/
def noBadgeConfig : Config := { defaultConfig with includeBadges := false }

/-- C4 (counterexample): on the input `"# T"` followed by five newlines and
`"x"`, the post-processor's output still contains a run of three newlines —
the single-pass `replace("\n\n\n", "\n\n")` rewrites the first three
newlines and leaves the remaining two untouched, producing four in a row. -/
theorem c4_counterexample :
    postProcessReadme noBadgeConfig plainRepo "# T\n\n\n\n\nx" = "# T\n\n\n\nx" ∧
    containsSub "\n\n\n".data
      (postProcessReadme noBadgeConfig plainRepo "# T\n\n\n\n\nx").data = true := by
  decide

/-- C4 (amended): the spacing step is one left-to-right non-overlapping
replacement of three newlines by two, so a run of `n` newlines becomes
`2⌊n/3⌋ + (n mod 3)` newlines: runs of exactly 3 collapse to 2, while longer
runs (4, 5, 7, …) can leave runs of 3 or more in the output. -/
theorem c4_collapse_run_lengths :
    ∀ n, collapseNewlines (List.replicate n '\n')
      = List.replicate (2 * (n / 3) + n % 3) '\n'
  | 0 => rfl
  | 1 => rfl
  | 2 => rfl
  | n + 3 => by
    have ih := c4_collapse_run_lengths n
    have harith : 2 * ((n + 3) / 3) + (n + 3) % 3 = 2 * (n / 3) + n % 3 + 1 + 1 := by
      omega
    calc collapseNewlines (List.replicate (n + 3) '\n')
        = '\n' :: '\n' :: collapseNewlines (List.replicate n '\n') := by
          rw [show List.replicate (n + 3) '\n'
              = '\n' :: '\n' :: '\n' :: List.replicate n '\n' from rfl]
          simp [collapseNewlines]
      _ = '\n' :: '\n' :: List.replicate (2 * (n / 3) + n % 3) '\n' := by rw [ih]
      _ = List.replicate (2 * ((n + 3) / 3) + (n + 3) % 3) '\n' := by
          rw [harith, List.replicate_succ, List.replicate_succ]

/-! Section: C7: language-percentage invariants -/

/-- Sum of the counts of an association list. -/
def sumVals (l : List (String × Nat)) : Nat := (l.map (·.2)).sum

/-- Lemma: `insertAdd` grows the total of the counts by the inserted amount. -/
theorem sumVals_insertAdd (l : List (String × Nat)) (k : String) (v : Nat) :
    sumVals (insertAdd l k v) = sumVals l + v := by
  induction l with
  | nil => simp [insertAdd, sumVals]
  | cons p rest ih =>
    by_cases h : p.1 = k
    · simp [insertAdd, h, sumVals]
      ring
    · simp [insertAdd, h, sumVals] at ih ⊢
      omega

/-- Invariant of the counting loop of `_analyze_languages`: the per-language
counts always sum to the running grand total. -/
theorem sumVals_foldl (files : List FileData) :
    ∀ acc : List (String × Nat) × Nat, sumVals acc.1 = acc.2 →
      sumVals (files.foldl analyzeLanguagesStep acc).1
        = (files.foldl analyzeLanguagesStep acc).2 := by
  induction files with
  | nil => intro acc h; simpa using h
  | cons f fs ih =>
    intro acc h
    rw [List.foldl_cons]
    refine ih _ ?_
    unfold analyzeLanguagesStep
    cases languageMap.lookup f.extension with
    | none => exact h
    | some lang =>
      simp only [sumVals_insertAdd]
      omega

/-- Summing the mapped percentages equals the summed counts over the total. -/
theorem sum_percentages (l : List (String × Nat)) (T : ℚ) :
    (((l.map (fun p => (p.1, (p.2 : ℚ) / T * 100))).map (·.2)).sum)
      = (sumVals l : ℚ) / T * 100 := by
  induction l with
  | nil => simp [sumVals]
  | cons p rest ih =>
    rw [List.map_cons, List.map_cons, List.sum_cons, ih]
    simp only [sumVals, List.map_cons, List.sum_cons]
    push_cast
    ring

/-- If the counting loop starts from the empty accumulator and every
recognized file has empty content, the grand total stays zero. -/
theorem foldl_total_zero (files : List FileData) :
    ∀ acc : List (String × Nat) × Nat,
      (∀ f ∈ files, (languageMap.lookup f.extension).isSome → f.content = "") →
      (files.foldl analyzeLanguagesStep acc).2 = acc.2 := by
  induction files with
  | nil => intro acc _; rfl
  | cons f fs ih =>
    intro acc h
    rw [List.foldl_cons]
    rw [ih _ (fun g hg => h g (List.mem_cons_of_mem _ hg))]
    unfold analyzeLanguagesStep
    cases hl : languageMap.lookup f.extension with
    | none => rfl
    | some lang =>
      have hc : f.content = "" := h f (List.mem_cons_self _ _) (by simp [hl])
      simp [hc]

/-- C7: whenever the total of counted lines is positive, the language
percentages sum to exactly 100 (over exact rationals); and when no file with
a recognized extension has non-empty content, the language mapping is empty
and the total is 0 (no division happens). -/
theorem c7_language_stats (files : List FileData) :
    (0 < (analyzeLanguages files).totalLines →
      (((analyzeLanguages files).languages.map (·.2)).sum = 100)) ∧
    ((∀ f ∈ files, (languageMap.lookup f.extension).isSome → f.content = "") →
      (analyzeLanguages files).languages = [] ∧
      (analyzeLanguages files).totalLines = 0) := by
  constructor
  · intro hpos
    have htot : sumVals (files.foldl analyzeLanguagesStep ([], 0)).1
        = (files.foldl analyzeLanguagesStep ([], 0)).2 :=
      sumVals_foldl files ([], 0) rfl
    unfold analyzeLanguages at hpos ⊢
    simp only at hpos ⊢
    rw [if_pos hpos]
    rw [sum_percentages, htot]
    have hne : ((files.foldl analyzeLanguagesStep ([], 0)).2 : ℚ) ≠ 0 := by
      exact_mod_cast Nat.pos_iff_ne_zero.mp hpos
    field_simp
  · intro hempty
    have h0 : (files.foldl analyzeLanguagesStep ([], 0)).2 = 0 :=
      foldl_total_zero files ([], 0) hempty
    unfold analyzeLanguages
    simp [h0]

/-- Witness for C7: a one-file set with two Python lines (total 2 > 0, sum of
percentages 100), and the empty file set (empty mapping). -/
theorem c7_language_stats_witness :
    ((analyzeLanguages c3Files).languages.map (·.2)).sum = 100 ∧
    (analyzeLanguages ([] : List FileData)).languages = [] :=
  ⟨(c7_language_stats c3Files).1 (by decide),
   ((c7_language_stats []).2 (by simp)).1⟩

/-! Section: C8: per-record invariants of the walker's output -/

/-- The spec's special-name allow-list, as base names. -/
def claimSpecialBaseNames : List String := ["README", "LICENSE", "Dockerfile", "Makefile"]

/-- Transitive membership of an entry in a forest of `GhEntry`. -/
inductive InForest : GhEntry → List GhEntry → Prop where
  | here {e : GhEntry} {es : List GhEntry} : e ∈ es → InForest e es
  | viaDir {e : GhEntry} {es : List GhEntry} {path name : String}
      {children : List GhEntry} :
      GhEntry.dir path name children ∈ es → InForest e children → InForest e es

/-- The per-record invariant of claim C8: bounded size, supported extension
or allow-listed base name, and provenance from a *file* node of the forest
(so no directory ever yields a record). -/
def WalkerRecordOk (cfg : Config) (entries : List GhEntry) (r : FileData) : Prop :=
  r.size ≤ cfg.maxFileSize ∧
  (r.extension ∈ cfg.supportedExtensions ∨ pyStem r.name ∈ claimSpecialBaseNames) ∧
  ∃ path name size content,
    InForest (.file path name size content) entries ∧
    r = fileRecordOf path name size content

/-- Weakening: membership in a forest persists under extending the forest. -/
theorem inForest_cons {e x : GhEntry} {es : List GhEntry}
    (h : InForest e es) : InForest e (x :: es) := by
  cases h with
  | here h => exact .here (List.mem_cons_of_mem _ h)
  | viaDir hdir hsub => exact .viaDir (List.mem_cons_of_mem _ hdir) hsub

/-- Soundness of the inner loop of `_analyze_directory_structure`: provided
the recursive call only returns good records for subdirectories of the
listing, the loop only ever adds good records to a good accumulator. -/
theorem walkLoop_sound (cfg : Config) (recurse : List GhEntry → List FileData)
    (entries0 : List GhEntry)
    (hrec : ∀ path name children, GhEntry.dir path name children ∈ entries0 →
      ∀ r ∈ recurse children, WalkerRecordOk cfg entries0 r) :
    ∀ lst acc, (∀ x ∈ lst, x ∈ entries0) →
      (∀ r ∈ acc, WalkerRecordOk cfg entries0 r) →
      ∀ r ∈ walkLoop cfg recurse lst acc, WalkerRecordOk cfg entries0 r := by
  intro lst
  induction lst with
  | nil =>
    intro acc _ hacc r hr
    rw [walkLoop] at hr
    exact hacc r hr
  | cons item rest ih =>
    intro acc hsub hacc r hr
    have hrest : ∀ x ∈ rest, x ∈ entries0 :=
      fun x hx => hsub x (List.mem_cons_of_mem _ hx)
    cases item with
    | dir p n children =>
      rw [walkLoop.eq_2] at hr
      by_cases hbreak : cfg.maxFiles ≤ acc.length
      · rw [if_pos hbreak] at hr
        exact hacc r hr
      · rw [if_neg hbreak] at hr
        refine ih (acc ++ recurse children) hrest ?_ r hr
        intro r' hr'
        rcases List.mem_append.mp hr' with h | h
        · exact hacc r' h
        · exact hrec p n children (hsub _ (List.mem_cons_self _ _)) r' h
    | file p n sz c =>
      rw [walkLoop.eq_3] at hr
      by_cases hbreak : cfg.maxFiles ≤ acc.length
      · rw [if_pos hbreak] at hr
        exact hacc r hr
      · rw [if_neg hbreak] at hr
        by_cases hext : pyLower (pySuffix n) ∈ cfg.supportedExtensions
            ∨ n ∈ specialFileNames
        · rw [if_pos hext] at hr
          by_cases hsz : sz ≤ cfg.maxFileSize
          · rw [if_pos hsz] at hr
            refine ih (acc ++ [fileRecordOf p n sz c]) hrest ?_ r hr
            intro r' hr'
            rcases List.mem_append.mp hr' with h | h
            · exact hacc r' h
            · rw [List.mem_singleton] at h
              subst h
              refine ⟨hsz, ?_, p, n, sz, c,
                .here (hsub _ (List.mem_cons_self _ _)), rfl⟩
              rcases hext with h | h
              · exact Or.inl h
              · refine Or.inr ?_
                simp only [specialFileNames, List.mem_cons, List.mem_singleton,
                  List.not_mem_nil, or_false] at h
                rcases h with rfl | rfl | rfl | rfl <;> simp only [fileRecordOf] <;> decide
          · rw [if_neg hsz] at hr
            exact ih acc hrest hacc r hr
        · rw [if_neg hext] at hr
          exact ih acc hrest hacc r hr

/-- C8: every record returned by the walker stems from a file node of the
forest (never a directory), has `size ≤ max_file_size`, and has either a
supported extension or an allow-listed base name. -/
theorem c8_walker_record_invariants (cfg : Config) (fuel : Nat) :
    ∀ entries, ∀ r ∈ analyzeDirectoryStructure cfg fuel entries,
      WalkerRecordOk cfg entries r := by
  induction fuel with
  | zero =>
    intro entries r hr
    rw [analyzeDirectoryStructure] at hr
    exact absurd hr (List.not_mem_nil _)
  | succ fuel ih =>
    intro entries r hr
    rw [analyzeDirectoryStructure] at hr
    refine walkLoop_sound cfg _ entries ?_ entries []
      (fun x hx => hx) (fun r' hr' => absurd hr' (List.not_mem_nil _)) r hr
    intro p n children hdir r' hr'
    obtain ⟨h1, h2, p', n', sz', c', hin, heq⟩ := ih children r' hr'
    exact ⟨h1, h2, p', n', sz', c', .viaDir hdir hin, heq⟩

/-- The one-file listing used to witness C8. -/
def c8Tree : List GhEntry := [.file "main.py" "main.py" 10 (some "x")]

/-- Witness for C8: the record collected for `main.py` from `c8Tree`
satisfies the invariant. -/
theorem c8_walker_record_invariants_witness :
    WalkerRecordOk defaultConfig c8Tree ⟨"main.py", "main.py", ".py", 10, "x"⟩ :=
  c8_walker_record_invariants defaultConfig 4 c8Tree
    ⟨"main.py", "main.py", ".py", 10, "x"⟩ (by decide)

/-! Section: C9: precedence of the project-type heuristics -/

/-- C9: project-type detection is exactly the first-match-wins evaluation of
the fixed rule order (Node manifest, Python manifest, Java build file, Rust
manifest, Go manifest, Ruby manifest, fallback); in particular, with both a
Node and a Python manifest present, the result comes from the
Node-ecosystem branch. -/
theorem c9_first_match_precedence :
    (∀ files, detectProjectType files = detectProjectTypeSpec files) ∧
    (∀ files,
      (files.map (fun f => pyLower f.name)).contains "package.json" = true →
      ((files.map (fun f => pyLower f.name)).contains "requirements.txt" = true ∨
        (files.map (fun f => pyLower f.name)).contains "pyproject.toml" = true) →
      detectProjectType files ∈
        ["React Application", "Vue.js Application", "Node.js Application"]) := by
  constructor
  · intro files
    simp only [detectProjectType, detectProjectTypeSpec, projectTypeRules, firstMatch]
  · intro files hpkg _
    simp only [detectProjectType]
    rw [hpkg]
    simp only [eq_self_iff_true, if_true]
    split
    · simp
    · split <;> simp

/-- Witness for C9: a file set holding both `package.json` and
`requirements.txt` lands in the Node branch. -/
theorem c9_first_match_precedence_witness :
    detectProjectType
      [⟨"package.json", "package.json", ".json", 2, "{}"⟩,
       ⟨"requirements.txt", "requirements.txt", ".txt", 6, "flask"⟩] ∈
      ["React Application", "Vue.js Application", "Node.js Application"] :=
  c9_first_match_precedence.2 _ (by decide) (Or.inl (by decide))

/-! Section: C10: badge (re-)insertion by the post-processor -/

/-- C10 (amended): on an input that begins with a top-level heading and shows
image markup (`"!["`) within its first 500 characters — as a freshly badged
output normally does — the post-processor performs no badge insertion at all:
the output is the input with only the newline-collapsing replacement
applied, so no second badge line can appear. -/
theorem c10_no_badge_reinsertion (cfg : Config) (repo : RepositoryData)
    (content : String)
    (hstart : "# ".data.isPrefixOf content.data = true)
    (hbadge : containsSub "![".data (content.data.take 500) = true) :
    postProcessReadme cfg repo content = String.mk (collapseNewlines content.data) := by
  simp only [postProcessReadme, hstart, if_true, hbadge, Bool.not_true,
    Bool.and_false, Bool.false_eq_true, if_false]

/-- Witness for C10 (amended): a short already-badged document passes through
with no badge insertion. -/
theorem c10_no_badge_reinsertion_witness :
    postProcessReadme defaultConfig plainRepo "# T\n\n![x](y)\n\nbody"
      = String.mk (collapseNewlines "# T\n\n![x](y)\n\nbody".data) :=
  c10_no_badge_reinsertion defaultConfig plainRepo _ (by decide) (by decide)

set_option maxRecDepth 100000

/-- A document whose first (heading) line is longer than 500 characters. -/
def c10LongTitleDoc : String :=
  "# " ++ String.mk (List.replicate 503 'a') ++ "\nbody"

/-- C10 (counterexample): processing `c10LongTitleDoc` inserts the badge
line after the 505-character heading, i.e. beyond the 500-character window
the idempotence guard inspects; re-running the post-processor on that badged
output inserts a second badge line (2 occurrences instead of 1). -/
theorem c10_counterexample :
    countOccur "![Last Commit".data
      (postProcessReadme defaultConfig plainRepo
        (postProcessReadme defaultConfig plainRepo c10LongTitleDoc)).data = 2 ∧
    countOccur "![Last Commit".data
      (postProcessReadme defaultConfig plainRepo c10LongTitleDoc).data = 1 := by
  decide

end ReadmeGen
